import Mathlib

/-!
Shallow embedding of the IEX DEEP/TOPS pcap decoder
(`iex_parser/messages.py` and `iex_parser/parser.py`).

Bytes are modelled as `List ℕ` (each entry a byte value).  Python's
`struct.unpack` with a `<` format requires the buffer length to equal the
format size exactly, otherwise it raises `struct.error`; fallible Python
code is modelled with `Except DecodeError`.  Python `dict` lookups that can
miss raise `KeyError` carrying the key; `dict.get` with a default never
raises.  `Decimal` arithmetic is modelled exactly (see `from_price`).
-/

deriving instance DecidableEq for Except

namespace IEX

/-- Values that can appear in a decoded message record (the Python dicts
are heterogeneous; a record field is one of these).  `time t` stands for
the `datetime` instant `t` nanoseconds after the Unix epoch, UTC — the
result of `datetime.fromtimestamp(t / 10 ** 9, tz=utc)`; `dec q` stands
for a `Decimal` whose mathematical value is `q`. -/
inductive Value where
  | str (s : String)
  | int (n : ℤ)
  | dec (q : ℚ)
  | time (t : ℤ)
  | strList (l : List String)
  | bool (b : Bool)
  deriving DecidableEq, Repr

/-- The seconds-since-epoch coordinate of a `Value.time` instant:
`.time t` is the instant `t / 10 ^ 9` seconds after the epoch. -/
def instantSeconds : Value → Option ℚ
  | .time t => some ((t : ℚ) / 1000000000)
  | _ => none

/-- A decoded message record: the Python dict, as an ordered association
list of field name and value. -/
abbrev Record := List (String × Value)

/-- The exceptions the Python decode path can raise.
`structError` is `struct.error` (buffer size does not match the format);
`keyError k` is a `KeyError` from a code-table lookup, carrying the code;
`unknownTag t` is the `KeyError` from the decoder dispatch table, carrying
the message tag; `unknownVersion` is the `KeyError` from the versioned
dispatch table; `indexError` is `buf[0]` on an empty buffer;
`invalidPayload` is `RuntimeError('Invalid payload')`;
`typeError` is a `TypeError` (`bytes & int` in `_decode_trade_break`);
`unicodeDecodeError` is the `UnicodeDecodeError` that
`bytes.decode('utf-8')` raises in `_to_str` on invalid UTF-8 input. -/
inductive DecodeError where
  | structError
  | keyError (k : ℕ)
  | unknownTag (t : ℕ)
  | unknownVersion (v : String)
  | indexError
  | invalidPayload
  | typeError
  | unicodeDecodeError
  deriving DecidableEq, Repr

/-- Combine a little-endian byte list into an unsigned integer. -/
def leBytes (l : List ℕ) : ℕ :=
  l.foldr (fun b acc => b + 256 * acc) 0

/-- Read `sz` bytes little-endian starting at offset `off`. -/
def rdLE (buf : List ℕ) (off sz : ℕ) : ℕ :=
  leBytes ((buf.drop off).take sz)

/-- Reinterpret an unsigned 64-bit value as a signed one (`struct` format
`q`). -/
def toInt64 (n : ℕ) : ℤ :=
  if n % 2 ^ 64 < 2 ^ 63 then ((n % 2 ^ 64 : ℕ) : ℤ)
  else ((n % 2 ^ 64 : ℕ) : ℤ) - 2 ^ 64

/-- Read a signed 8-byte little-endian field at offset `off`. -/
def rdI64 (buf : List ℕ) (off : ℕ) : ℤ :=
  toInt64 (rdLE buf off 8)

/-- The raw bytes of a fixed-width field. -/
def rdBytes (buf : List ℕ) (off sz : ℕ) : List ℕ :=
  (buf.drop off).take sz

/-- The characters Python's `str.strip()` removes: exactly those for which
`str.isspace()` holds (Unicode whitespace — 0x09–0x0D, 0x1C–0x1F, space,
NEL, NBSP, and the Unicode space separators). -/
def isPySpace (c : Char) : Bool :=
  let n := c.toNat
  (0x09 ≤ n && n ≤ 0x0D) || (0x1C ≤ n && n ≤ 0x1F) || n = 0x20 ||
  n = 0x85 || n = 0xA0 || n = 0x1680 || (0x2000 ≤ n && n ≤ 0x200A) ||
  n = 0x2028 || n = 0x2029 || n = 0x202F || n = 0x205F || n = 0x3000

/-- Whether a byte is a UTF-8 continuation byte (0x80–0xBF). -/
def isCont (b : ℕ) : Bool := 0x80 ≤ b && b < 0xC0

/-- Strict UTF-8 decoding (the semantics of `bytes.decode('utf-8')`):
fuel-based so that it reduces definitionally; `fuel` is initialised to the
list length and each step consumes at least one byte.  Rejects stray
continuation bytes, overlong encodings, surrogate code points and code
points above 0x10FFFF, exactly as CPython's strict UTF-8 codec does. -/
def utf8Aux : ℕ → List ℕ → Option (List Char)
  | _, [] => some []
  | 0, _ :: _ => none
  | fuel + 1, b :: rest =>
    if b < 0x80 then
      (utf8Aux fuel rest).map (fun cs => Char.ofNat b :: cs)
    else if b < 0xC2 then none
    else if b < 0xE0 then
      match rest with
      | b1 :: rest2 =>
        if isCont b1 then
          (utf8Aux fuel rest2).map
            (fun cs => Char.ofNat ((b - 0xC0) * 64 + (b1 - 0x80)) :: cs)
        else none
      | [] => none
    else if b < 0xF0 then
      match rest with
      | b1 :: b2 :: rest2 =>
        if isCont b1 && isCont b2 then
          if (b - 0xE0) * 4096 + (b1 - 0x80) * 64 + (b2 - 0x80) < 0x800 ∨
             (0xD800 ≤ (b - 0xE0) * 4096 + (b1 - 0x80) * 64 + (b2 - 0x80) ∧
              (b - 0xE0) * 4096 + (b1 - 0x80) * 64 + (b2 - 0x80) ≤ 0xDFFF) then
            none
          else
            (utf8Aux fuel rest2).map
              (fun cs => Char.ofNat ((b - 0xE0) * 4096 + (b1 - 0x80) * 64 + (b2 - 0x80)) :: cs)
        else none
      | _ => none
    else if b < 0xF5 then
      match rest with
      | b1 :: b2 :: b3 :: rest2 =>
        if isCont b1 && isCont b2 && isCont b3 then
          if (b - 0xF0) * 262144 + (b1 - 0x80) * 4096 + (b2 - 0x80) * 64 + (b3 - 0x80) < 0x10000 ∨
             0x10FFFF < (b - 0xF0) * 262144 + (b1 - 0x80) * 4096 + (b2 - 0x80) * 64 + (b3 - 0x80) then
            none
          else
            (utf8Aux fuel rest2).map
              (fun cs =>
                Char.ofNat ((b - 0xF0) * 262144 + (b1 - 0x80) * 4096 + (b2 - 0x80) * 64 + (b3 - 0x80)) :: cs)
        else none
      | _ => none
    else none

/-- Python `bytes.decode('utf-8')` with strict error handling: the decoded
characters, or `none` for a `UnicodeDecodeError`. -/
def decodeUtf8 (l : List ℕ) : Option (List Char) :=
  utf8Aux l.length l

/-- Python `_to_str`: `value.decode('utf-8').strip()` — decode the
fixed-width byte field as UTF-8 (`none` models the `UnicodeDecodeError`
raised on invalid input) and strip Unicode whitespace from both ends. -/
def to_str (l : List ℕ) : Option String :=
  (decodeUtf8 l).map
    (fun cs => String.mk (((cs.dropWhile isPySpace).reverse.dropWhile isPySpace).reverse))

/-- Strip trailing factors of 10: `strip10Aux fuel n = (c, z)` with
`n = c * 10 ^ z` and (given enough fuel) `10 ∤ c` unless `c = 0`. -/
def strip10Aux : ℕ → ℕ → ℕ × ℕ
  | 0, n => (n, 0)
  | fuel + 1, n =>
    if n ≠ 0 ∧ n % 10 = 0 then
      let p := strip10Aux fuel (n / 10)
      (p.1, p.2 + 1)
    else (n, 0)

/-- Strip trailing factors of 10 from `n`. -/
def strip10 (n : ℕ) : ℕ × ℕ := strip10Aux n n

/-- Number of decimal digits of `n` (0 for 0), fuel-based so that it
reduces definitionally. -/
def numDigitsAux : ℕ → ℕ → ℕ
  | 0, _ => 0
  | fuel + 1, n => if n = 0 then 0 else numDigitsAux fuel (n / 10) + 1

/-- Number of decimal digits of `n` (0 for 0). -/
def numDigits (n : ℕ) : ℕ := numDigitsAux n n

/-- Round `c / 10 ^ k` to an integer, ties to even (the `ROUND_HALF_EVEN`
rounding of Python's default `Decimal` context). -/
def roundHalfEven (c k : ℕ) : ℕ :=
  let q := c / 10 ^ k
  let r := c % 10 ^ k
  let twice := 2 * r
  if twice > 10 ^ k then q + 1
  else if twice < 10 ^ k then q
  else if q % 2 = 0 then q else q + 1

/-- Python `_from_price`: `Decimal(value) / 10 ** 4` under Python's default
`Decimal` context (28 significant digits, round half even).  The quotient
`value / 10 ^ 4` always has a finite decimal expansion; writing it as
`± c * 10 ^ (z - 4)` with `10 ∤ c`, the division is exact when `c` has at
most 28 digits and is otherwise rounded to 28 significant digits.  The
result is the mathematical value of the resulting `Decimal`. -/
def from_price (value : ℤ) : ℚ :=
  let n := value.natAbs
  let s := strip10 n
  if numDigits s.1 ≤ 28 then (value : ℚ) / 10000
  else
    let k := numDigits s.1 - 28
    let r := roundHalfEven s.1 k
    (value.sign : ℚ) * (r : ℚ) * (10 : ℚ) ^ (s.2 + k) / 10000

/-- Python `_from_timestamp`: `datetime.fromtimestamp(value / 10 ** 9, tz=utc)`,
i.e. the instant `value` nanoseconds after the Unix epoch, UTC. -/
def from_timestamp (value : ℤ) : Value :=
  .time value

/-- Python `SYSTEM_EVENT_TYPES` (messages.py): keyed by the event byte. -/
def system_event_types (c : ℕ) : Option String :=
  if c = 79 then some "start_of_messages"
  else if c = 83 then some "start_of_system_hours"
  else if c = 82 then some "start_of_regular_hours"
  else if c = 67 then some "end_of_messages"
  else if c = 69 then some "end_of_system_hours"
  else if c = 77 then some "end_of_regular_hours"
  else none

/-- Python `LULD_TIER`. -/
def luld_tier (c : ℕ) : Option String :=
  if c = 0 then some "not_applicable"
  else if c = 1 then some "tier_1_nms_stock"
  else if c = 2 then some "tier_2_nms_stock"
  else none

/-- Python `TRADING_STATUS_MESSAGES`: keyed by the one-byte status field. -/
def trading_status_messages (c : ℕ) : Option String :=
  if c = 72 then some "all_halted"
  else if c = 79 then some "iex_released"
  else if c = 80 then some "iex_paused"
  else if c = 84 then some "iex_trading"
  else none

/-- Python `PRICE_TYPE`: keyed by the one-byte price-type field. -/
def price_type_table (c : ℕ) : Option String :=
  if c = 81 then some "open"
  else if c = 77 then some "close"
  else none

/-- Python `SECURITY_EVENT`: keyed by the one-byte event field. -/
def security_event_table (c : ℕ) : Option String :=
  if c = 79 then some "opening"
  else if c = 67 then some "closing"
  else none

/-- Python `_from_sale_condition_flags` (messages.py). -/
def from_sale_condition_flags (flags : ℕ) : List String :=
  (if flags &&& 0x80 ≠ 0 then ["iso"] else []) ++
  (if flags &&& 0x40 ≠ 0 then ["out_of_hours"] else []) ++
  (if flags &&& 0x20 ≠ 0 then ["odd_lot"] else []) ++
  (if flags &&& 0x10 ≠ 0 then ["trade_through_except"] else []) ++
  (if flags &&& 0x08 ≠ 0 then ["single_price_cross"] else [])

/-- The security-directory flag set (inline in
`_decode_security_directory`). -/
def security_directory_flags (flags : ℕ) : List String :=
  (if flags &&& 0x80 ≠ 0 then ["test"] else []) ++
  (if flags &&& 0x40 ≠ 0 then ["when_issued"] else []) ++
  (if flags &&& 0x20 ≠ 0 then ["etp"] else [])

/-- Python `_decode_system_event`: `struct.unpack('<Bq', buf)`, then the
`SYSTEM_EVENT_TYPES` lookup (a `KeyError` when the event byte is
unmapped). -/
def decode_system_event (buf : List ℕ) : Except DecodeError Record :=
  if buf.length ≠ 9 then .error .structError
  else
    let ev := buf.getD 0 0
    match system_event_types ev with
    | none => .error (.keyError ev)
    | some name =>
      .ok [("type", .str "system_event"),
           ("event", .str name),
           ("timestamp", from_timestamp (rdI64 buf 1))]

/-- Python `_decode_security_directory`: `struct.unpack('<Bq8sLqB', buf)`.  The
returned dict omits the unpacked `symbol`; the `LULD_TIER` lookup raises
`KeyError` on an unmapped tier byte. -/
def decode_security_directory (buf : List ℕ) : Except DecodeError Record :=
  if buf.length ≠ 30 then .error .structError
  else
    let tier := buf.getD 29 0
    match luld_tier tier with
    | none => .error (.keyError tier)
    | some tierName =>
      .ok [("type", .str "security_directive"),
           ("flags", .strList (security_directory_flags (buf.getD 0 0))),
           ("timestamp", from_timestamp (rdI64 buf 1)),
           ("round_lot_size", .int (rdLE buf 17 4)),
           ("adjusted_poc_close", .dec (from_price (rdI64 buf 21))),
           ("luld_tier", .str tierName)]

/-- Python `_decode_trading_status`: `struct.unpack('<1sq8s4s', buf)`.  The
returned dict omits the unpacked `timestamp` and `symbol`.  The dict
literal evaluates `_to_str(status)` first (a `UnicodeDecodeError` for a
non-ASCII status byte), then the `TRADING_STATUS_MESSAGES` lookup (a
`KeyError` on an unmapped status byte), then `_to_str(reason)`. -/
def decode_trading_status (buf : List ℕ) : Except DecodeError Record :=
  if buf.length ≠ 21 then .error .structError
  else
    match to_str [buf.getD 0 0] with
    | none => .error .unicodeDecodeError
    | some st =>
      match trading_status_messages (buf.getD 0 0) with
      | none => .error (.keyError (buf.getD 0 0))
      | some descr =>
        match to_str (rdBytes buf 17 4) with
        | none => .error .unicodeDecodeError
        | some reason =>
          .ok [("type", .str "trading_status"),
               ("status", .str st),
               ("description", .str descr),
               ("reason", .str reason)]

/-- Python `_decode_operational_halt`: `struct.unpack('<1sq8s', buf)`; the
dict literal decodes `halt_status` first, then `symbol`. -/
def decode_operational_halt (buf : List ℕ) : Except DecodeError Record :=
  if buf.length ≠ 17 then .error .structError
  else
    match to_str [buf.getD 0 0] with
    | none => .error .unicodeDecodeError
    | some hs =>
      match to_str (rdBytes buf 9 8) with
      | none => .error .unicodeDecodeError
      | some sym =>
        .ok [("type", .str "operational_halt"),
             ("halt_status", .str hs),
             ("timestamp", from_timestamp (rdI64 buf 1)),
             ("symbol", .str sym)]

/-- Python `_decode_short_sale_price_test_status`:
`struct.unpack('<Bq8s1s', buf)`; the dict literal decodes `symbol` first,
then `detail`. -/
def decode_short_sale_price_test_status (buf : List ℕ) : Except DecodeError Record :=
  if buf.length ≠ 18 then .error .structError
  else
    match to_str (rdBytes buf 9 8) with
    | none => .error .unicodeDecodeError
    | some sym =>
      match to_str [buf.getD 17 0] with
      | none => .error .unicodeDecodeError
      | some detail =>
        .ok [("type", .str "short_sale_price_test_status"),
             ("is_test", .bool (buf.getD 0 0 = 1)),
             ("timestamp", from_timestamp (rdI64 buf 1)),
             ("symbol", .str sym),
             ("detail", .str detail)]

/-- Python `_decode_quote_update`: `struct.unpack('<Bq8sLqqL', buf)`.  The raw
flags byte is passed through as an integer. -/
def decode_quote_update (buf : List ℕ) : Except DecodeError Record :=
  if buf.length ≠ 41 then .error .structError
  else
    match to_str (rdBytes buf 9 8) with
    | none => .error .unicodeDecodeError
    | some sym =>
      .ok [("type", .str "quote_update"),
           ("flags", .int (buf.getD 0 0)),
           ("timestamp", from_timestamp (rdI64 buf 1)),
           ("symbol", .str sym),
           ("bid_size", .int (rdLE buf 17 4)),
           ("bid_price", .dec (from_price (rdI64 buf 21))),
           ("ask_size", .int (rdLE buf 37 4)),
           ("ask_price", .dec (from_price (rdI64 buf 29)))]

/-- Python `_decode_trade_report`: `struct.unpack('<Bq8sLqq', buf)`; the flags
byte (format `B`, an int) goes through `_from_sale_condition_flags`, and
the only fallible conversion is `_to_str(symbol)`. -/
def decode_trade_report (buf : List ℕ) : Except DecodeError Record :=
  if buf.length ≠ 37 then .error .structError
  else
    match to_str (rdBytes buf 9 8) with
    | none => .error .unicodeDecodeError
    | some sym =>
      .ok [("type", .str "trade_report"),
           ("flags", .strList (from_sale_condition_flags (buf.getD 0 0))),
           ("timestamp", from_timestamp (rdI64 buf 1)),
           ("symbol", .str sym),
           ("size", .int (rdLE buf 17 4)),
           ("price", .dec (from_price (rdI64 buf 21))),
           ("trade_id", .int (rdI64 buf 29))]

/-- Python `_decode_official_price`: `struct.unpack('<1sq8sq', buf)`; the
price-type byte is looked up with `PRICE_TYPE.get(price_type,
_to_str(price_type))`.  Python evaluates the default argument
`_to_str(price_type)` eagerly, so a non-ASCII price-type byte raises
`UnicodeDecodeError` there; an unmapped ASCII byte falls back to its raw
stripped character and never raises.  The `symbol` field is decoded
after the price-type entry. -/
def decode_official_price (buf : List ℕ) : Except DecodeError Record :=
  if buf.length ≠ 25 then .error .structError
  else
    match to_str [buf.getD 0 0] with
    | none => .error .unicodeDecodeError
    | some raw =>
      match to_str (rdBytes buf 9 8) with
      | none => .error .unicodeDecodeError
      | some sym =>
        .ok [("type", .str "official_price"),
             ("price_type", .str ((price_type_table (buf.getD 0 0)).getD raw)),
             ("timestamp", from_timestamp (rdI64 buf 1)),
             ("symbol", .str sym),
             ("price", .dec (from_price (rdI64 buf 17)))]

/-- Python `_decode_trade_break`: `struct.unpack('<1sq8sLqq', buf)` — a
37-byte format (1+8+8+4+8+8) — unpacks the flags field with `1s`, a
one-byte `bytes` object, and then calls
`_from_sale_condition_flags(sale_flags)`, which evaluates
`sale_flags & 0x80` — `bytes & int` raises `TypeError` in Python, so every
well-sized (37-byte) trade-break body fails before any field is decoded. -/
def decode_trade_break (buf : List ℕ) : Except DecodeError Record :=
  if buf.length ≠ 37 then .error .structError
  else .error .typeError

/-- Python `_decode_auction_information`:
`struct.unpack('<1sq8sLqqL1sBLqqqq', buf)`.  The `timestamp` field is run
through `_from_price` (the fixed-point price conversion), not
`_from_timestamp`; `scheduled_auction_time` is passed through raw. -/
def decode_auction_information (buf : List ℕ) : Except DecodeError Record :=
  if buf.length ≠ 79 then .error .structError
  else
    match to_str [buf.getD 0 0] with
    | none => .error .unicodeDecodeError
    | some at_ =>
      match to_str (rdBytes buf 9 8) with
      | none => .error .unicodeDecodeError
      | some sym =>
        match to_str [buf.getD 41 0] with
        | none => .error .unicodeDecodeError
        | some side =>
          .ok [("type", .str "auction_information"),
               ("auction_type", .str at_),
               ("timestamp", .dec (from_price (rdI64 buf 1))),
               ("symbol", .str sym),
               ("paired_shares", .int (rdLE buf 17 4)),
               ("reference_price", .dec (from_price (rdI64 buf 21))),
               ("indicative_clearing_price", .dec (from_price (rdI64 buf 29))),
               ("imbalance_shares", .int (rdLE buf 37 4)),
               ("imbalance_side", .str side),
               ("extension_number", .int (buf.getD 42 0)),
               ("scheduled_auction_time", .int (rdLE buf 43 4)),
               ("auction_book_clearing_price", .dec (from_price (rdI64 buf 47))),
               ("collar_reference_price", .dec (from_price (rdI64 buf 55))),
               ("lower_auction_collar_price", .dec (from_price (rdI64 buf 63))),
               ("upper_auction_collar_price", .dec (from_price (rdI64 buf 71)))]

/-- Python `_decode_price_level_update`: `struct.unpack('<Bq8sIq', buf)` with the
side supplied by the dispatch table. -/
def decode_price_level_update (side : String) (buf : List ℕ) :
    Except DecodeError Record :=
  if buf.length ≠ 29 then .error .structError
  else
    match to_str (rdBytes buf 9 8) with
    | none => .error .unicodeDecodeError
    | some sym =>
      .ok [("type", .str "price_level_update"),
           ("side", .str side),
           ("event_flags", .str (if buf.getD 0 0 = 1 then "complete" else "processing")),
           ("timestamp", from_timestamp (rdI64 buf 1)),
           ("symbol", .str sym),
           ("size", .int (rdLE buf 17 4)),
           ("price", .dec (from_price (rdI64 buf 21)))]

/-- Python `_decode_security_event_message`: `struct.unpack('<1sq8s', buf)`; the
event byte is looked up with `SECURITY_EVENT.get(security_event,
_to_str(security_event))` — the default is evaluated eagerly, so a
non-ASCII event byte raises `UnicodeDecodeError`, while an unmapped ASCII
byte falls back to its raw stripped character.  The `symbol` field is
decoded after the event entry. -/
def decode_security_event_message (buf : List ℕ) : Except DecodeError Record :=
  if buf.length ≠ 17 then .error .structError
  else
    match to_str [buf.getD 0 0] with
    | none => .error .unicodeDecodeError
    | some raw =>
      match to_str (rdBytes buf 9 8) with
      | none => .error .unicodeDecodeError
      | some sym =>
        .ok [("type", .str "security_event"),
             ("security_event", .str ((security_event_table (buf.getD 0 0)).getD raw)),
             ("timestamp", from_timestamp (rdI64 buf 1)),
             ("symbol", .str sym)]

/-- Python `_DECODERS`: the dispatch table keyed by the one-byte message tag. -/
def decoders (tag : ℕ) : Option (List ℕ → Except DecodeError Record) :=
  if tag = 0x53 then some decode_system_event
  else if tag = 0x44 then some decode_security_directory
  else if tag = 0x48 then some decode_trading_status
  else if tag = 0x4f then some decode_operational_halt
  else if tag = 0x50 then some decode_short_sale_price_test_status
  else if tag = 0x51 then some decode_quote_update
  else if tag = 0x54 then some decode_trade_report
  else if tag = 0x58 then some decode_official_price
  else if tag = 0x42 then some decode_trade_break
  else if tag = 0x41 then some decode_auction_information
  else if tag = 0x38 then some (decode_price_level_update "buy")
  else if tag = 0x35 then some (decode_price_level_update "sell")
  else if tag = 0x45 then some decode_security_event_message
  else none

/-- Python `DEEP_1_0`. -/
def DEEP_1_0 : String := "DEEPv1.0"

/-- Python `TOPS_1_6`. -/
def TOPS_1_6 : String := "TOPSv1.6"

/-- Python `decode_message`: `_VERSIONED_DECODERS[version][message_type](buf)`.
A version miss and a tag miss are both `KeyError`s; the tag miss carries
the offending tag. -/
def decode_message (version : String) (message_type : ℕ) (buf : List ℕ) :
    Except DecodeError Record :=
  if version = DEEP_1_0 ∨ version = TOPS_1_6 then
    match decoders message_type with
    | some d => d buf
    | none => .error (.unknownTag message_type)
  else .error (.unknownVersion version)

/-- Python `DeepPcapReader.HEADER_SIZE`: `struct.calcsize('<BxHIIHHqqq') = 40`. -/
def HEADER_SIZE : ℕ := 40

/-- The transport segment header, `struct.unpack('<BxHIIHHqqq', buf[:40])`.
The `x` in the pattern skips the reserved byte at offset 1. -/
structure Header where
  version : ℕ
  message_protocol_id : ℕ
  channel_id : ℕ
  session_id : ℕ
  payload_length : ℕ
  message_count : ℕ
  stream_offset : ℤ
  first_message_seq_number : ℤ
  send_time : ℤ
  deriving DecidableEq, Repr

/-- Parse the 40-byte segment header (the caller has already checked that
at least 40 bytes are available).  Offset 1 (the reserved byte) is never
read. -/
def parseHeader (buf : List ℕ) : Header where
  version := buf.getD 0 0
  message_protocol_id := rdLE buf 2 2
  channel_id := rdLE buf 4 4
  session_id := rdLE buf 8 4
  payload_length := rdLE buf 12 2
  message_count := rdLE buf 14 2
  stream_offset := rdI64 buf 16
  first_message_seq_number := rdI64 buf 24
  send_time := rdI64 buf 32

/-- Python `DeepPcapReader._parse_message`: `buf[0]` (an `IndexError` on an empty
frame), then `decode_message` on the remainder. -/
def parse_message (protocol : String) (buf : List ℕ) : Except DecodeError Record :=
  match buf with
  | [] => .error .indexError
  | t :: body => decode_message protocol t body

/-- The frame loop of `DeepPcapReader._read`: iterate `count` times,
each time `struct.unpack("<H", buf[start:start+2])` (a `struct.error`
when fewer than 2 bytes remain), then slice `message_lengh` bytes — a
Python slice truncates silently at the end of the buffer — and parse them
as one message.  No check relates the final `start` to the payload
length. -/
def readFrames (protocol : String) (buf : List ℕ) :
    ℕ → ℕ → Except DecodeError (List Record)
  | 0, _ => .ok []
  | count + 1, start =>
    if ((buf.drop start).take 2).length ≠ 2 then .error .structError
    else
      match parse_message protocol
          ((buf.drop (start + 2)).take (leBytes ((buf.drop start).take 2))) with
      | .error e => .error e
      | .ok m =>
        match readFrames protocol buf count
            (start + 2 + leBytes ((buf.drop start).take 2)) with
        | .error e => .error e
        | .ok ms => .ok (m :: ms)

/-- Python `DeepPcapReader._read`: unpack the header (`struct.error` when the
buffer holds fewer than 40 bytes), raise `RuntimeError('Invalid payload')`
when the buffer length differs from header size plus `payload_length`,
return `none` for an empty payload, and otherwise read exactly
`message_count` frames. -/
def deep_read (protocol : String) (buf : List ℕ) :
    Except DecodeError (Option (List Record)) :=
  if buf.length < HEADER_SIZE then .error .structError
  else if buf.length ≠ HEADER_SIZE + (parseHeader buf).payload_length then
    .error .invalidPayload
  else if (parseHeader buf).payload_length = 0 then .ok none
  else
    match readFrames protocol buf (parseHeader buf).message_count HEADER_SIZE with
    | .error e => .error e
    | .ok ms => .ok (some ms)

/-- An entry of the producer/consumer queue: either a decoded record or
the sentinel object that `_fill` enqueues at end of capture. -/
inductive QItem where
  | msg (r : Record)
  | sentinel
  deriving DecidableEq, Repr

/-- The producer loop `DeepPcapReader._fill`, run over the finite sequence
of payload buffers of the capture: each buffer is decoded with
`_read` and its records are enqueued in order; at end of capture the
sentinel is enqueued.  When `_read` raises, the exception propagates out
of `_fill` and kills the producer thread — nothing further (in particular
no sentinel and no error marker) is enqueued.  The result is the full
queue content plus the error, if any, that escaped the thread. -/
def fill (protocol : String) : List (List ℕ) → List QItem × Option DecodeError
  | [] => ([QItem.sentinel], none)
  | b :: rest =>
    match deep_read protocol b with
    | .error e => ([], some e)
    | .ok none => fill protocol rest
    | .ok (some ms) =>
      let q := fill protocol rest
      (ms.map QItem.msg ++ q.1, q.2)

/-- The naive sequential decode of a capture: run the segment decoder and
message decoder over each buffer in order and concatenate the records
(an empty-payload segment contributes no records). -/
def seq_decode (protocol : String) : List (List ℕ) → Except DecodeError (List Record)
  | [] => .ok []
  | b :: rest =>
    match deep_read protocol b with
    | .error e => .error e
    | .ok r =>
      match seq_decode protocol rest with
      | .error e => .error e
      | .ok rs => .ok (r.getD [] ++ rs)

/-- What the consumer's pull (`DeepPcapReader.__next__`, a blocking
`Queue.get()` with no timeout) observes. -/
inductive PullResult where
  | record (r : Record)
  | endOfStream
  | blocked
  deriving DecidableEq, Repr

/-- The consumer's `k`-th pull: the `k`-th queue entry if one ever
arrives (a record, or the sentinel, which `__next__` turns into
`StopIteration`); when the queue is exhausted and the producer has
terminated without enqueueing a sentinel, `Queue.get()` blocks forever. -/
def pull (protocol : String) (bufs : List (List ℕ)) (k : ℕ) : PullResult :=
  match (fill protocol bufs).1[k]? with
  | some (QItem.msg r) => .record r
  | some QItem.sentinel => .endOfStream
  | none => .blocked

/-- A 40-byte segment header buffer: version 1, the given reserved byte,
protocol id 0x8004, channel 1, session 0, the given payload length,
message count 1, and zero stream offset, sequence number and send time. -/
def mkSegHeader (reserved payloadLen : ℕ) : List ℕ :=
  [1, reserved, 4, 128, 1, 0, 0, 0, 0, 0, 0, 0, payloadLen, 0, 1, 0] ++
  List.replicate 24 0

/-- A well-formed one-message segment: payload length 12 holding one
10-byte frame (2-byte length prefix, tag 0x53, event byte 'O', zero
timestamp). -/
def systemEventSegment : List ℕ :=
  mkSegHeader 0 12 ++ [10, 0, 0x53, 79] ++ List.replicate 8 0

/-- The same segment with reserved byte 7 instead of 0. -/
def reservedSegment : List ℕ :=
  mkSegHeader 7 12 ++ [10, 0, 0x53, 79] ++ List.replicate 8 0

/-- A segment whose declared payload length is 13 but whose single frame
(2-byte prefix plus 10 message bytes) consumes only 12 payload bytes,
leaving one undeclared leftover byte. -/
def leftoverSegment : List ℕ :=
  mkSegHeader 0 13 ++ [10, 0, 0x53, 79] ++ List.replicate 8 0 ++ [0]

/-- The record decoded from the frame of `systemEventSegment`. -/
def systemEventRecord : Record :=
  [("type", Value.str "system_event"),
   ("event", Value.str "start_of_messages"),
   ("timestamp", Value.time 0)]

/-- A 79-byte auction-information body: auction type 'A', timestamp field
1 000 000 000 ns (bytes 0x00 0xCA 0x9A 0x3B little-endian), symbol
"AAPL", imbalance side 'B', every other field zero. -/
def auctionBody : List ℕ :=
  [65] ++ [0, 202, 154, 59, 0, 0, 0, 0] ++ [65, 65, 80, 76, 32, 32, 32, 32] ++
  List.replicate 4 0 ++ List.replicate 8 0 ++ List.replicate 8 0 ++
  List.replicate 4 0 ++ [66, 0] ++ List.replicate 4 0 ++ List.replicate 8 0 ++
  List.replicate 8 0 ++ List.replicate 8 0 ++ List.replicate 8 0

/-- A 21-byte trading-status body: status 'H', zero timestamp, symbol
"AAPL", reason four spaces. -/
def tradingStatusBody : List ℕ :=
  [72] ++ List.replicate 8 0 ++ [65, 65, 80, 76, 32, 32, 32, 32] ++
  [32, 32, 32, 32]

/-- A 25-byte official-price body whose price-type byte 'Z' has no entry
in `PRICE_TYPE`. -/
def officialPriceBodyZ : List ℕ :=
  [90] ++ List.replicate 8 0 ++ [65, 65, 80, 76, 32, 32, 32, 32] ++
  List.replicate 8 0

/-- A 37-byte trade-report body: flags byte 0x48, zero timestamp, symbol
"AAPL", zero size, price and trade id. -/
def tradeReportBody : List ℕ :=
  [72] ++ List.replicate 8 0 ++ [65, 65, 80, 76, 32, 32, 32, 32] ++
  List.replicate 4 0 ++ List.replicate 8 0 ++ List.replicate 8 0

theorem strip10Aux_fst_le : ∀ fuel n, (strip10Aux fuel n).1 ≤ n := by
  intro fuel
  induction fuel with
  | zero => intro n; exact Nat.le_refl n
  | succ k ih =>
    intro n
    rw [strip10Aux]
    split
    · exact Nat.le_trans (ih (n / 10)) (Nat.div_le_self n 10)
    · exact Nat.le_refl n

theorem numDigitsAux_le : ∀ fuel n k, n < 10 ^ k → n ≤ fuel → numDigitsAux fuel n ≤ k := by
  intro fuel
  induction fuel with
  | zero => intro n k _ _; simp [numDigitsAux]
  | succ f ih =>
    intro n k hk hf
    rw [numDigitsAux]
    split
    · exact Nat.zero_le k
    · rename_i hn
      cases k with
      | zero => omega
      | succ k =>
        have h1 : n / 10 < 10 ^ k := by
          rw [Nat.div_lt_iff_lt_mul (by norm_num)]
          calc n < 10 ^ (k + 1) := hk
          _ = 10 ^ k * 10 := by ring
        have h2 : n / 10 ≤ f := by omega
        have := ih (n / 10) k h1 h2
        omega

theorem numDigits_le_of_lt (n k : ℕ) (h : n < 10 ^ k) : numDigits n ≤ k :=
  numDigitsAux_le n n k h (Nat.le_refl n)

theorem from_price_exact (n : ℤ)
    (h1 : -(2 : ℤ) ^ 63 ≤ n) (h2 : n < 2 ^ 63) :
    from_price n = (n : ℚ) / 10000 := by
  have e63 : (2 : ℤ) ^ 63 = 9223372036854775808 := by norm_num
  rw [e63] at h1 h2
  have hna : n.natAbs < 10 ^ 19 := by
    have : (10 : ℕ) ^ 19 = 10000000000000000000 := by norm_num
    omega
  have hstrip : (strip10 n.natAbs).1 ≤ n.natAbs := strip10Aux_fst_le _ _
  have hd : numDigits (strip10 n.natAbs).1 ≤ 28 :=
    Nat.le_trans (numDigits_le_of_lt _ 19 (Nat.lt_of_le_of_lt hstrip hna)) (by norm_num)
  unfold from_price
  exact if_pos hd

/-- C9: for every signed 64-bit integer `n`, `_from_price` returns exactly
the rational number `n / 10000` — the stripped coefficient of the quotient
has at most 19 < 28 significant digits, so the `Decimal` division is exact
and no rounding occurs. -/
theorem c9_price_conversion_exact (n : ℤ)
    (h1 : -(2 : ℤ) ^ 63 ≤ n) (h2 : n < 2 ^ 63) :
    from_price n = (n : ℚ) / 10000 :=
  from_price_exact n h1 h2

/-- Witness for C9 at the spec's concrete inputs. -/
theorem c9_witness : from_price 10000 = 1 ∧ from_price (-10000) = -1 := by
  have hp := c9_price_conversion_exact 10000 (by norm_num) (by norm_num)
  have hm := c9_price_conversion_exact (-10000) (by norm_num) (by norm_num)
  refine ⟨?_, ?_⟩
  · rw [hp]; norm_num
  · rw [hm]; norm_num

/-- C4: for every message whose one-byte type tag is not one of the 13
dispatch-table entries, `decode_message` fails with the dispatch-table
`KeyError` carrying the offending tag — the unknown-message-type error —
for any body and either supported protocol version. -/
theorem c4_unknown_tag_rejected (version : String) (tag : ℕ) (body : List ℕ)
    (hv : version = DEEP_1_0 ∨ version = TOPS_1_6)
    (ht : tag ∉ [0x53, 0x44, 0x48, 0x4f, 0x50, 0x51, 0x54, 0x58, 0x42, 0x41,
                 0x38, 0x35, 0x45]) :
    decode_message version tag body = .error (DecodeError.unknownTag tag) := by
  simp only [List.mem_cons, List.not_mem_nil, or_false, not_or] at ht
  obtain ⟨h1, h2, h3, h4, h5, h6, h7, h8, h9, h10, h11, h12, h13⟩ := ht
  simp [decode_message, decoders, hv, h1, h2, h3, h4, h5, h6, h7, h8, h9, h10,
        h11, h12, h13]

/-- Witness for C4 at the spec's concrete tag 0x99. -/
theorem c4_witness :
    decode_message DEEP_1_0 0x99 [] = .error (DecodeError.unknownTag 0x99) :=
  c4_unknown_tag_rejected DEEP_1_0 0x99 [] (Or.inl rfl) (by decide)

theorem utf8Aux_single_of_ge (fuel c : ℕ) (h : 128 ≤ c) :
    utf8Aux (fuel + 1) [c] = none := by
  have h1 : ¬ c < 128 := by omega
  simp only [utf8Aux]
  rw [if_neg h1]
  split_ifs <;> rfl

theorem utf8Aux_single_of_lt (fuel c : ℕ) (h : c < 128) :
    utf8Aux (fuel + 1) [c] = some [Char.ofNat c] := by
  simp [utf8Aux, h]

theorem to_str_single_of_ge (c : ℕ) (h : 128 ≤ c) : to_str [c] = none := by
  have h1 : utf8Aux [c].length [c] = none := utf8Aux_single_of_ge 0 c h
  rw [to_str, decodeUtf8, h1]
  rfl

theorem to_str_single_of_lt (c : ℕ) (h : c < 128) :
    to_str [c] = some (String.mk ((([Char.ofNat c].dropWhile
      isPySpace).reverse.dropWhile isPySpace).reverse)) := by
  have h1 : utf8Aux [c].length [c] = some [Char.ofNat c] := utf8Aux_single_of_lt 0 c h
  rw [to_str, decodeUtf8, h1]
  rfl

/-- C8 counterexample: the flags byte 0x40 decodes to `out_of_hours`, not
`extended_hours` (and 0x10 to `trade_through_except`, not
`trade_through_exempt`); moreover `_decode_trade_break` never produces a
flag set at all, because it passes the raw one-byte field to the flag
decoder and `bytes & int` is a `TypeError` for every well-sized (37-byte)
body. -/
theorem c8_counterexample :
    from_sale_condition_flags 0x40 = ["out_of_hours"] ∧
    "extended_hours" ∉ from_sale_condition_flags 0x40 ∧
    from_sale_condition_flags 0x10 = ["trade_through_except"] ∧
    "trade_through_exempt" ∉ from_sale_condition_flags 0x10 ∧
    decode_trade_break (List.replicate 37 0) = .error DecodeError.typeError := by
  decide

/-- C8 amended: for every flags byte of a trade_report message the decoded
flag set contains exactly the names whose bits are set — `iso` for 0x80,
`out_of_hours` for 0x40, `odd_lot` for 0x20, `trade_through_except` for
0x10 and `single_price_cross` for 0x08 — and nothing else, and every
37-byte trade_report body whose symbol field decodes produces the record
carrying exactly that flag set; trade_break invokes the same flag-bit
decoder but hands it the raw one-byte `bytes` field, so decoding any
well-sized (37-byte) trade_break body raises a `TypeError` before any
field is decoded, and any other length raises `struct.error` in the
unpack. -/
theorem c8_sale_condition_flags :
    (∀ f : ℕ,
      ("iso" ∈ from_sale_condition_flags f ↔ f &&& 0x80 ≠ 0) ∧
      ("out_of_hours" ∈ from_sale_condition_flags f ↔ f &&& 0x40 ≠ 0) ∧
      ("odd_lot" ∈ from_sale_condition_flags f ↔ f &&& 0x20 ≠ 0) ∧
      ("trade_through_except" ∈ from_sale_condition_flags f ↔ f &&& 0x10 ≠ 0) ∧
      ("single_price_cross" ∈ from_sale_condition_flags f ↔ f &&& 0x08 ≠ 0) ∧
      (∀ s ∈ from_sale_condition_flags f,
        s ∈ (["iso", "out_of_hours", "odd_lot", "trade_through_except",
              "single_price_cross"] : List String))) ∧
    (∀ buf : List ℕ, ∀ sym : String, buf.length = 37 →
      to_str (rdBytes buf 9 8) = some sym →
      decode_trade_report buf =
        .ok [("type", Value.str "trade_report"),
             ("flags", Value.strList (from_sale_condition_flags (buf.getD 0 0))),
             ("timestamp", from_timestamp (rdI64 buf 1)),
             ("symbol", Value.str sym),
             ("size", Value.int (rdLE buf 17 4)),
             ("price", Value.dec (from_price (rdI64 buf 21))),
             ("trade_id", Value.int (rdI64 buf 29))]) ∧
    (∀ buf : List ℕ, buf.length = 37 →
      decode_trade_break buf = .error DecodeError.typeError) ∧
    (∀ buf : List ℕ, buf.length ≠ 37 →
      decode_trade_break buf = .error DecodeError.structError) := by
  refine ⟨fun f => ?_, fun buf sym h hsym => ?_, fun buf h => ?_, fun buf h => ?_⟩
  · unfold from_sale_condition_flags
    split_ifs <;> simp_all
  · simp [decode_trade_report, h, hsym]
  · simp [decode_trade_break, h]
  · simp [decode_trade_break, h]

/-- Witness for C8 amended at concrete inputs, including a full 37-byte
trade_report body with flags byte 0x48 and symbol "AAPL". -/
theorem c8_witness :
    "out_of_hours" ∈ from_sale_condition_flags 0x48 ∧
    decode_trade_report tradeReportBody =
      .ok [("type", Value.str "trade_report"),
           ("flags", Value.strList (from_sale_condition_flags (tradeReportBody.getD 0 0))),
           ("timestamp", from_timestamp (rdI64 tradeReportBody 1)),
           ("symbol", Value.str "AAPL"),
           ("size", Value.int (rdLE tradeReportBody 17 4)),
           ("price", Value.dec (from_price (rdI64 tradeReportBody 21))),
           ("trade_id", Value.int (rdI64 tradeReportBody 29))] ∧
    decode_trade_break (List.replicate 37 1) = .error DecodeError.typeError ∧
    decode_trade_break (List.replicate 38 1) = .error DecodeError.structError :=
  ⟨((c8_sale_condition_flags.1 0x48).2.1).mpr (by decide),
   c8_sale_condition_flags.2.1 tradeReportBody "AAPL" (by decide) (by decide),
   c8_sale_condition_flags.2.2.1 (List.replicate 37 1) (by decide),
   c8_sale_condition_flags.2.2.2 (List.replicate 38 1) (by decide)⟩

/-- C7 counterexample: the official-price decoder does not fail on every
unmapped price-type byte — for the ASCII byte 'Z',
`PRICE_TYPE.get(price_type, _to_str(price_type))` silently passes the raw
character through and the body decodes successfully with
`price_type = "Z"` instead of raising. -/
theorem c7_counterexample :
    price_type_table 90 = none ∧
    (decode_official_price officialPriceBodyZ).toOption.bind
      (List.lookup "price_type") = some (Value.str "Z") := by
  decide

/-- C7 amended: the system-event and LULD-tier lookups fail with a
`KeyError` carrying the unmapped code byte (those code fields are ints
never string-decoded); the trading-status lookup fails with a `KeyError`
for an unmapped ASCII status byte, but for a status byte ≥ 0x80 the
`_to_str(status)` entry evaluated before the lookup raises
`UnicodeDecodeError` instead; the official-price price-type and
security-event lookups use `dict.get` with the eagerly evaluated default
`_to_str(code)`, so an unmapped ASCII code byte is silently passed through
as the raw stripped character (when the symbol field also decodes), while
a code byte ≥ 0x80 raises `UnicodeDecodeError` from the default. -/
theorem c7_unmapped_code_lookups :
    (∀ c : ℕ, ∀ rest : List ℕ, rest.length = 8 → system_event_types c = none →
      decode_system_event (c :: rest) = .error (DecodeError.keyError c)) ∧
    (∀ c : ℕ, ∀ rest : List ℕ, rest.length = 20 → c < 128 →
      trading_status_messages c = none →
      decode_trading_status (c :: rest) = .error (DecodeError.keyError c)) ∧
    (∀ c : ℕ, ∀ rest : List ℕ, rest.length = 20 → 128 ≤ c →
      decode_trading_status (c :: rest) = .error DecodeError.unicodeDecodeError) ∧
    (∀ pre : List ℕ, ∀ c : ℕ, pre.length = 29 → luld_tier c = none →
      decode_security_directory (pre ++ [c]) = .error (DecodeError.keyError c)) ∧
    (∀ c : ℕ, ∀ rest : List ℕ, ∀ raw sym : String, rest.length = 24 →
      price_type_table c = none → to_str [c] = some raw →
      to_str (rdBytes (c :: rest) 9 8) = some sym →
      decode_official_price (c :: rest) =
        .ok [("type", Value.str "official_price"),
             ("price_type", Value.str raw),
             ("timestamp", from_timestamp (rdI64 (c :: rest) 1)),
             ("symbol", Value.str sym),
             ("price", Value.dec (from_price (rdI64 (c :: rest) 17)))]) ∧
    (∀ c : ℕ, ∀ rest : List ℕ, rest.length = 24 → 128 ≤ c →
      decode_official_price (c :: rest) = .error DecodeError.unicodeDecodeError) ∧
    (∀ c : ℕ, ∀ rest : List ℕ, ∀ raw sym : String, rest.length = 16 →
      security_event_table c = none → to_str [c] = some raw →
      to_str (rdBytes (c :: rest) 9 8) = some sym →
      decode_security_event_message (c :: rest) =
        .ok [("type", Value.str "security_event"),
             ("security_event", Value.str raw),
             ("timestamp", from_timestamp (rdI64 (c :: rest) 1)),
             ("symbol", Value.str sym)]) ∧
    (∀ c : ℕ, ∀ rest : List ℕ, rest.length = 16 → 128 ≤ c →
      decode_security_event_message (c :: rest) = .error DecodeError.unicodeDecodeError) := by
  refine ⟨fun c rest hlen hnone => ?_, fun c rest hlen hc hnone => ?_,
          fun c rest hlen hc => ?_, fun pre c hlen hnone => ?_,
          fun c rest raw sym hlen hnone hraw hsym => ?_,
          fun c rest hlen hc => ?_,
          fun c rest raw sym hlen hnone hraw hsym => ?_,
          fun c rest hlen hc => ?_⟩
  · simp [decode_system_event, hlen, hnone]
  · simp [decode_trading_status, hlen, to_str_single_of_lt c hc, hnone]
  · simp [decode_trading_status, hlen, to_str_single_of_ge c hc]
  · have h29 : (pre ++ [c]).getD 29 0 = c := by
      simp [List.getD_eq_getElem?_getD, List.getElem?_append_right, hlen]
    simp [decode_security_directory, hlen, hnone, h29]
  · simp [decode_official_price, hlen, hraw, hsym, hnone]
  · simp [decode_official_price, hlen, to_str_single_of_ge c hc]
  · simp [decode_security_event_message, hlen, hraw, hsym, hnone]
  · simp [decode_security_event_message, hlen, to_str_single_of_ge c hc]

/-- Witness for C7 amended: the unmapped ASCII byte 'Z' gives `KeyError`
in the system-event and trading-status decoders, and the non-ASCII byte
0x90 gives `UnicodeDecodeError` in the trading-status and official-price
decoders. -/
theorem c7_witness :
    decode_system_event (90 :: List.replicate 8 0) = .error (DecodeError.keyError 90) ∧
    decode_trading_status (90 :: List.replicate 20 0) = .error (DecodeError.keyError 90) ∧
    decode_trading_status (144 :: List.replicate 20 0) =
      .error DecodeError.unicodeDecodeError ∧
    decode_official_price (144 :: List.replicate 24 0) =
      .error DecodeError.unicodeDecodeError :=
  ⟨c7_unmapped_code_lookups.1 90 (List.replicate 8 0) (by decide) (by decide),
   c7_unmapped_code_lookups.2.1 90 (List.replicate 20 0) (by decide) (by decide) (by decide),
   c7_unmapped_code_lookups.2.2.1 144 (List.replicate 20 0) (by decide) (by decide),
   c7_unmapped_code_lookups.2.2.2.2.2.1 144 (List.replicate 24 0) (by decide) (by decide)⟩

/-- C1, at the failing input: a capture whose single payload buffer is
empty makes `_read` raise `struct.error` inside the producer thread
`_fill`; the exception kills the thread, nothing — no record, no sentinel,
no error marker — is ever enqueued, and the consumer's first pull blocks
forever in `Queue.get()` instead of observing the error. -/
theorem c1_fatal_error_swallowed :
    fill DEEP_1_0 [[]] = ([], some DecodeError.structError) ∧
    pull DEEP_1_0 [[]] 0 = PullResult.blocked := by
  decide

/-- C3, at the failing input: `leftoverSegment` has total length equal to
header size plus the declared payload length 13, its single 12-byte frame
leaves one payload byte unconsumed, and `_read` succeeds anyway — the
shortfall raises nothing, because the frame loop runs exactly
`message_count` times and never compares the final offset with the
payload boundary. -/
theorem c3_leftover_bytes_accepted :
    leftoverSegment.length = HEADER_SIZE + (parseHeader leftoverSegment).payload_length ∧
    (parseHeader leftoverSegment).payload_length = 13 ∧
    (parseHeader leftoverSegment).message_count = 1 ∧
    deep_read DEEP_1_0 leftoverSegment = .ok (some [systemEventRecord]) := by
  decide

/-- C5, at the failing input: in the auction-information decoder the
8-byte timestamp field at offset 1, here 1 000 000 000 ns, is converted
with `_from_price` and comes out as the `Decimal` 100000 — not as the
instant one second after the epoch that `_from_timestamp` would give. -/
theorem c5_auction_timestamp_price_converted :
    rdI64 auctionBody 1 = 1000000000 ∧
    (decode_auction_information auctionBody).toOption.bind
      (List.lookup "timestamp") = some (Value.dec 100000) ∧
    instantSeconds (from_timestamp 1000000000) = some 1 := by
  refine ⟨by decide, ?_, ?_⟩
  · have hts : rdI64 auctionBody 1 = 1000000000 := by decide
    have hp : Value.dec (from_price (rdI64 auctionBody 1)) = Value.dec 100000 := by
      rw [hts, from_price_exact 1000000000 (by norm_num) (by norm_num)]
      norm_num
    simp only [decode_auction_information]
    rw [hp]
    rfl
  · simp [from_timestamp, instantSeconds]

/-- C2: when the naive sequential decode of the capture's payload buffers
succeeds with `records`, the producer enqueues exactly those records in
order followed by the sentinel and terminates cleanly, so the consumer's
pulls return precisely `records` in order and then end-of-stream — the
concurrent pipeline is equivalent to the sequential decode, with no
reordering, duplication or loss. -/
theorem c2_pipeline_refines_sequential (protocol : String) (bufs : List (List ℕ))
    (records : List Record)
    (h : seq_decode protocol bufs = .ok records) :
    fill protocol bufs = (records.map QItem.msg ++ [QItem.sentinel], none) ∧
    (∀ k, ∀ hk : k < records.length,
      pull protocol bufs k = .record (records.get ⟨k, hk⟩)) ∧
    pull protocol bufs records.length = .endOfStream := by
  have hfill : fill protocol bufs = (records.map QItem.msg ++ [QItem.sentinel], none) := by
    induction bufs generalizing records with
    | nil =>
      simp only [seq_decode, Except.ok.injEq] at h
      subst h
      simp [fill]
    | cons b rest ih =>
      simp only [seq_decode] at h
      cases hd : deep_read protocol b with
      | error e => rw [hd] at h; simp at h
      | ok r =>
        rw [hd] at h
        cases hs : seq_decode protocol rest with
        | error e => rw [hs] at h; simp at h
        | ok rs =>
          rw [hs] at h
          simp only [Except.ok.injEq] at h
          subst h
          simp only [fill, hd]
          cases r with
          | none => simpa using ih rs hs
          | some ms => simp [ih rs hs]
  refine ⟨hfill, ?_, ?_⟩
  · intro k hk
    simp only [pull, hfill]
    have h1 : (records.map QItem.msg ++ [QItem.sentinel])[k]? =
        some (QItem.msg (records.get ⟨k, hk⟩)) := by
      rw [List.getElem?_append_left (by simpa using hk)]
      simp [List.getElem?_map, List.getElem?_eq_getElem hk]
    rw [h1]
  · simp only [pull, hfill]
    have h2 : (records.map QItem.msg ++ [QItem.sentinel])[records.length]? =
        some QItem.sentinel := by
      rw [List.getElem?_append_right (by simp)]
      simp
    rw [h2]

/-- Witness for C2 at a one-segment capture holding one system-event
message. -/
theorem c2_witness :
    seq_decode DEEP_1_0 [systemEventSegment] = .ok [systemEventRecord] ∧
    pull DEEP_1_0 [systemEventSegment] 0 = .record systemEventRecord ∧
    pull DEEP_1_0 [systemEventSegment] 1 = .endOfStream := by
  have h : seq_decode DEEP_1_0 [systemEventSegment] = .ok [systemEventRecord] := by
    decide
  have hc := c2_pipeline_refines_sequential DEEP_1_0 [systemEventSegment]
    [systemEventRecord] h
  exact ⟨h, hc.2.1 0 (by decide), hc.2.2⟩

/-- C6, at the failing input: the trading-status decoder unpacks all four
layout fields but returns a record holding only `type`, `status`,
`description` and `reason` — the `timestamp` and `symbol` fields are
dropped.  The status byte 'H' does map to `all_halted`. -/
theorem c6_trading_status_record_incomplete :
    decode_trading_status tradingStatusBody =
      .ok [("type", Value.str "trading_status"),
           ("status", Value.str "H"),
           ("description", Value.str "all_halted"),
           ("reason", Value.str "")] ∧
    (decode_trading_status tradingStatusBody).toOption.bind
      (List.lookup "timestamp") = none ∧
    (decode_trading_status tradingStatusBody).toOption.bind
      (List.lookup "symbol") = none := by
  decide

theorem getD_set1 (l : List ℕ) (v i : ℕ) (hi : i ≠ 1) :
    (l.set 1 v).getD i 0 = l.getD i 0 := by
  simp [List.getD_eq_getElem?_getD, List.getElem?_set_ne (Ne.symm hi)]

theorem drop_set1 (l : List ℕ) (v s : ℕ) (hs : 2 ≤ s) :
    (l.set 1 v).drop s = l.drop s :=
  List.drop_set_of_lt v l (by omega)

theorem rdLE_set1 (l : List ℕ) (v off sz : ℕ) (h : 2 ≤ off) :
    rdLE (l.set 1 v) off sz = rdLE l off sz := by
  rw [rdLE, rdLE, drop_set1 l v off h]

theorem rdI64_set1 (l : List ℕ) (v off : ℕ) (h : 2 ≤ off) :
    rdI64 (l.set 1 v) off = rdI64 l off := by
  rw [rdI64, rdI64, rdLE_set1 l v off 8 h]

theorem parseHeader_set1 (l : List ℕ) (v : ℕ) :
    parseHeader (l.set 1 v) = parseHeader l := by
  simp only [parseHeader]
  rw [getD_set1 l v 0 (by norm_num),
      rdLE_set1 l v 2 2 (by norm_num), rdLE_set1 l v 4 4 (by norm_num),
      rdLE_set1 l v 8 4 (by norm_num), rdLE_set1 l v 12 2 (by norm_num),
      rdLE_set1 l v 14 2 (by norm_num),
      rdI64_set1 l v 16 (by norm_num), rdI64_set1 l v 24 (by norm_num),
      rdI64_set1 l v 32 (by norm_num)]

theorem readFrames_set1 (p : String) (l : List ℕ) (v : ℕ) :
    ∀ count start, 2 ≤ start →
      readFrames p (l.set 1 v) count start = readFrames p l count start := by
  intro count
  induction count with
  | zero => intro start _; rfl
  | succ k ih =>
    intro start hs
    simp only [readFrames]
    rw [drop_set1 l v start hs, drop_set1 l v (start + 2) (by omega)]
    rw [ih (start + 2 + leBytes ((l.drop start).take 2)) (by omega)]

theorem deep_read_set1 (p : String) (l : List ℕ) (v : ℕ) :
    deep_read p (l.set 1 v) = deep_read p l := by
  simp only [deep_read, List.length_set, parseHeader_set1]
  rw [readFrames_set1 p l v (parseHeader l).message_count HEADER_SIZE (by norm_num [HEADER_SIZE])]

/-- C10: two segment buffers of equal length that agree everywhere except
possibly at byte offset 1 — the reserved header byte, skipped by the `x`
in the header pattern — yield the same parsed header and the same
segment-decoding result (the same records, or the same failure). -/
theorem c10_reserved_byte_no_influence (protocol : String) (b1 b2 : List ℕ)
    (hlen : b1.length = b2.length)
    (hagree : ∀ i, i < b1.length → i ≠ 1 → b1.getD i 0 = b2.getD i 0) :
    parseHeader b1 = parseHeader b2 ∧
    deep_read protocol b1 = deep_read protocol b2 := by
  have hb2 : b2 = b1.set 1 (b2.getD 1 0) := by
    apply List.ext_getElem?
    intro n
    by_cases hn : n = 1
    · subst hn
      by_cases hr : 1 < b1.length
      · have hr2 : 1 < b2.length := hlen ▸ hr
        rw [List.getElem?_set_eq_of_lt _ hr]
        simp [List.getElem?_eq_getElem hr2, List.getD_eq_getElem?_getD]
      · rw [List.getElem?_eq_none (by omega),
            List.getElem?_eq_none (by simp only [List.length_set]; omega)]
    · rw [List.getElem?_set_ne (Ne.symm hn)]
      by_cases hr : n < b1.length
      · have hr2 : n < b2.length := hlen ▸ hr
        have hg := hagree n hr hn
        rw [List.getElem?_eq_getElem hr, List.getElem?_eq_getElem hr2]
        simp only [List.getD_eq_getElem?_getD, List.getElem?_eq_getElem hr,
          List.getElem?_eq_getElem hr2, Option.getD_some] at hg
        rw [hg]
      · rw [List.getElem?_eq_none (by omega), List.getElem?_eq_none (by omega)]
  refine ⟨?_, ?_⟩
  · rw [hb2, parseHeader_set1]
  · rw [hb2, deep_read_set1]

/-- Witness for C10: the sample segment with reserved byte 0 and the same
segment with reserved byte 7 decode identically. -/
theorem c10_witness :
    parseHeader systemEventSegment = parseHeader reservedSegment ∧
    deep_read DEEP_1_0 systemEventSegment = deep_read DEEP_1_0 reservedSegment :=
  c10_reserved_byte_no_influence DEEP_1_0 systemEventSegment reservedSegment
    (by decide) (by decide)

end IEX
